import Mathlib

/-!
Verification of the multi-tenant RLS access-coordination layer
(`src/database/client.ts`, the RLS policy migrations, and the schema).

The embedding models:
* the two transaction-scoped configuration variables
  (`app.current_tenant_id`, `app.is_superadmin`) as an explicit
  `SessionConfig` record;
* the row-level-security policies exactly as recreated by migration 012
  (`NULLIF(current_setting('app.current_tenant_id', true), '')::UUID`
  comparisons, and the `projects_select` privileged-access disjunction);
* the three coordinator entry points `withTenantContext`,
  `withSystemContext`, `withPrivilegedContext` as state-passing functions
  over an explicit database state, where a transaction commits the
  callback's final state on success and restores the initial state on
  failure, and where every configuration-variable statement the
  coordinator issues is recorded in a trace;
* the export list of the client module.
-/

deriving instance DecidableEq for Except

namespace RlsMT

/-- Transaction-scoped configuration variables read by the RLS policies.
`none` models an unset variable (`current_setting(key, true)` returns
NULL); `some s` models a variable set to the string `s`. -/
structure SessionConfig where
  current_tenant_id : Option String
  is_superadmin : Option String
deriving DecidableEq, Repr

/-- Configuration at transaction start: neither variable set. -/
def emptyConfig : SessionConfig := ⟨none, none⟩

/-- Configuration established by `withTenantContext` before running the
callback: `SET LOCAL app.current_tenant_id = $1` (client.ts line 87). -/
def tenantContextConfig (tenantId : String) : SessionConfig :=
  ⟨some tenantId, none⟩

/-- Configuration established by `withPrivilegedContext` before running
the callback: `SET LOCAL app.is_superadmin = 'true'` (client.ts line 183);
no tenant identifier is set. -/
def privilegedContextConfig : SessionConfig :=
  ⟨none, some "true"⟩

/-- Hexadecimal digit, as accepted by the PostgreSQL `uuid` type. -/
def isHexDigit (c : Char) : Bool :=
  c.isDigit || (('a' ≤ c) && (c ≤ 'f')) || (('A' ≤ c) && (c ≤ 'F'))

/-- Syntactic validity of a UUID string in canonical 8-4-4-4-12 form
(the form produced by `gen_random_uuid()` and accepted by `::UUID`). -/
def isValidUuid (s : String) : Bool :=
  s.length == 36 &&
    s.toList.enum.all fun p =>
      if p.1 == 8 || p.1 == 13 || p.1 == 18 || p.1 == 23 then
        p.2 == '-'
      else
        isHexDigit p.2

/-- Lower-casing by character list (kernel-reducible; PostgreSQL compares
UUID values case-insensitively, and `::UUID` canonicalises to lower case). -/
def lowerStr (s : String) : String :=
  String.mk (s.data.map Char.toLower)

/-- Errors raised by the storage engine while evaluating a policy:
the only one the policies can raise is a failing `::UUID` cast. -/
inductive SqlErr where
  | uuidCastError
deriving DecidableEq, Repr

/-- `NULLIF(v, '')` on a nullable string: converts the empty string to
NULL and leaves everything else unchanged (migration 012). -/
def nullifEmpty : Option String → Option String
  | none => none
  | some s => if s = "" then none else some s

/-- `::UUID` cast of a nullable string: NULL casts to NULL, a valid UUID
string casts to its canonical (lower-case) value, anything else errors. -/
def castUuidOpt : Option String → Except SqlErr (Option String)
  | none => .ok none
  | some s => if isValidUuid s then .ok (some (lowerStr s)) else .error .uuidCastError

/-- The tenant-equality half of every policy:
`tenant_id = NULLIF(current_setting('app.current_tenant_id', true), '')::UUID`.
A NULL comparand yields SQL NULL, which USING/WITH CHECK treats as
row-excluded, so it is returned here as `false`. -/
def tenantMatch (cfg : SessionConfig) (tenant_id : String) : Except SqlErr Bool :=
  match castUuidOpt (nullifEmpty cfg.current_tenant_id) with
  | .error e => .error e
  | .ok none => .ok false
  | .ok (some v) => .ok (lowerStr tenant_id == v)

/-- The privileged-access half of `projects_select`:
`COALESCE(current_setting('app.is_superadmin', true), 'false') = 'true'`. -/
def superadminMatch (cfg : SessionConfig) : Bool :=
  (cfg.is_superadmin.getD "false") == "true"

/-- `users_select` policy (migration 012). -/
def users_select (cfg : SessionConfig) (tenant_id : String) : Except SqlErr Bool :=
  tenantMatch cfg tenant_id

/-- `users_insert` policy (migration 012). -/
def users_insert (cfg : SessionConfig) (tenant_id : String) : Except SqlErr Bool :=
  tenantMatch cfg tenant_id

/-- `users_update` policy, both USING and WITH CHECK (migration 012). -/
def users_update (cfg : SessionConfig) (tenant_id : String) : Except SqlErr Bool :=
  tenantMatch cfg tenant_id

/-- `users_delete` policy (migration 012). -/
def users_delete (cfg : SessionConfig) (tenant_id : String) : Except SqlErr Bool :=
  tenantMatch cfg tenant_id

/-- `projects_select` policy (migration 012): tenant isolation OR
privileged admin access. -/
def projects_select (cfg : SessionConfig) (tenant_id : String) : Except SqlErr Bool :=
  match tenantMatch cfg tenant_id with
  | .error e => .error e
  | .ok a => .ok (a || superadminMatch cfg)

/-- `projects_insert` policy (migration 012): tenant equality only. -/
def projects_insert (cfg : SessionConfig) (tenant_id : String) : Except SqlErr Bool :=
  tenantMatch cfg tenant_id

/-- `projects_update` policy, both USING and WITH CHECK (migration 012). -/
def projects_update (cfg : SessionConfig) (tenant_id : String) : Except SqlErr Bool :=
  tenantMatch cfg tenant_id

/-- `projects_delete` policy (migration 012). -/
def projects_delete (cfg : SessionConfig) (tenant_id : String) : Except SqlErr Bool :=
  tenantMatch cfg tenant_id

/-- `tasks_select` policy (migration 012). -/
def tasks_select (cfg : SessionConfig) (tenant_id : String) : Except SqlErr Bool :=
  tenantMatch cfg tenant_id

/-- `tasks_insert` policy (migration 012). -/
def tasks_insert (cfg : SessionConfig) (tenant_id : String) : Except SqlErr Bool :=
  tenantMatch cfg tenant_id

/-- `tasks_update` policy, both USING and WITH CHECK (migration 012). -/
def tasks_update (cfg : SessionConfig) (tenant_id : String) : Except SqlErr Bool :=
  tenantMatch cfg tenant_id

/-- `tasks_delete` policy (migration 012). -/
def tasks_delete (cfg : SessionConfig) (tenant_id : String) : Except SqlErr Bool :=
  tenantMatch cfg tenant_id

/-- The tenant-scoped tables (those with RLS enabled). -/
inductive TenantTable where
  | users
  | projects
  | tasks
deriving DecidableEq, Repr

/-- The four row operations covered by the policies. -/
inductive SqlOp where
  | select
  | insert
  | update
  | delete
deriving DecidableEq, Repr

/-- The row-filtering predicate the storage engine applies to operation
`op` on table `t` (USING for select/update/delete, WITH CHECK for
insert/update; for update the two clauses are identical). Dispatches to
the migration-012 policies above. -/
def policyPred (t : TenantTable) (op : SqlOp) (cfg : SessionConfig)
    (tenant_id : String) : Except SqlErr Bool :=
  match t, op with
  | .users, .select => users_select cfg tenant_id
  | .users, .insert => users_insert cfg tenant_id
  | .users, .update => users_update cfg tenant_id
  | .users, .delete => users_delete cfg tenant_id
  | .projects, .select => projects_select cfg tenant_id
  | .projects, .insert => projects_insert cfg tenant_id
  | .projects, .update => projects_update cfg tenant_id
  | .projects, .delete => projects_delete cfg tenant_id
  | .tasks, .select => tasks_select cfg tenant_id
  | .tasks, .insert => tasks_insert cfg tenant_id
  | .tasks, .update => tasks_update cfg tenant_id
  | .tasks, .delete => tasks_delete cfg tenant_id

/-- Modelled from the spec: the row-filtering predicate as §6 of the
specification describes it for every read/write on every tenant-scoped
table — tenant-column equality OR the privileged-bypass flag. Written
for comparison with `policyPred`, which is taken from the migrations. -/
def specClaimedPred (cfg : SessionConfig) (tenant_id : String) : Except SqlErr Bool :=
  match tenantMatch cfg tenant_id with
  | .error e => .error e
  | .ok a => .ok (a || superadminMatch cfg)

/-- A row of a tenant-scoped table, reduced to the column the policies
read. -/
structure TenantRow where
  id : String
  tenant_id : String
deriving DecidableEq, Repr

/-- Result of a SELECT on a tenant-scoped table: the rows whose policy
predicate evaluates to true, in order; errors if the predicate errors. -/
def filterVisible (t : TenantTable) (op : SqlOp) (cfg : SessionConfig) :
    List TenantRow → Except SqlErr (List TenantRow)
  | [] => .ok []
  | r :: rs =>
    match policyPred t op cfg r.tenant_id with
    | .error e => .error e
    | .ok keep =>
      match filterVisible t op cfg rs with
      | .error e => .error e
      | .ok rest => .ok (if keep then r :: rest else rest)

/-- One row of `admin_audit_log` (schema.ts / migration 004b). `metadata`
is modelled by the one field the coordinator writes into it, the
timestamp (`metadata: { timestamp: new Date().toISOString() }`). -/
structure AuditRow where
  actor_id : String
  actor_email : String
  action : String
  correlation_id : String
  reason : String
  metadata_timestamp : String
deriving DecidableEq, Repr

/-- The database state visible to the coordinator: the three
tenant-scoped tables and the (un-filtered) audit log. -/
structure DbState where
  users : List TenantRow
  projects : List TenantRow
  tasks : List TenantRow
  admin_audit_log : List AuditRow
deriving DecidableEq, Repr

/-- Errors that can cross the coordinator boundary. -/
inductive Err where
  /-- The `admin_audit_log` insert violated a constraint (e.g. the
  `actor_id UUID NOT NULL` column rejected a malformed identifier). -/
  | auditConstraint
  /-- An error thrown by the caller-supplied callback. -/
  | callbackFailure (msg : String)
deriving DecidableEq, Repr

/-- `INSERT INTO admin_audit_log`: succeeds and appends the row when
`actor_id` is a well-formed UUID, fails the statement otherwise
(the column is typed `UUID NOT NULL`). No RLS applies to this table. -/
def auditInsert (s : DbState) (row : AuditRow) : Except Err DbState :=
  if isValidUuid row.actor_id then
    .ok { s with admin_audit_log := s.admin_audit_log ++ [row] }
  else
    .error .auditConstraint

/-- The four mandatory inputs of `withPrivilegedContext`. -/
structure PrivReq where
  actorId : String
  actorEmail : String
  correlationId : String
  reason : String
deriving DecidableEq, Repr

/-- The audit row `withPrivilegedContext` inserts (client.ts lines
194-206): the caller's four fields, the fixed `action` literal, and a
metadata timestamp (`now` stands for `new Date().toISOString()`). -/
def mkAuditRow (req : PrivReq) (now : String) : AuditRow :=
  { actor_id := req.actorId
    actor_email := req.actorEmail
    action := "privileged_cross_tenant_query"
    correlation_id := req.correlationId
    reason := req.reason
    metadata_timestamp := now }

/-- Number of audit rows matching a privileged request on the three
fields the spec pairs with it (actor_id, correlation_id, reason). -/
def countMatching (log : List AuditRow) (req : PrivReq) : Nat :=
  (log.filter fun r =>
    r.actor_id == req.actorId && r.correlation_id == req.correlationId
      && r.reason == req.reason).length

/-- A configuration-variable statement issued by the coordinator on the
transaction's connection. -/
inductive CfgOp where
  /-- `SET LOCAL app.current_tenant_id = <v>` -/
  | setTenant (v : String)
  /-- `SET LOCAL app.is_superadmin = <v>` -/
  | setSuperadmin (v : String)
  /-- `RESET app.current_tenant_id` -/
  | resetTenant
  /-- `RESET app.is_superadmin` -/
  | resetSuperadmin
deriving DecidableEq, Repr

/-- Effect of one configuration statement on the session state. -/
def applyCfgOp (c : SessionConfig) : CfgOp → SessionConfig
  | .setTenant v => { c with current_tenant_id := some v }
  | .setSuperadmin v => { c with is_superadmin := some v }
  | .resetTenant => { c with current_tenant_id := none }
  | .resetSuperadmin => { c with is_superadmin := none }

/-- Effect of a sequence of configuration statements. -/
def applyCfgOps (c : SessionConfig) (ops : List CfgOp) : SessionConfig :=
  ops.foldl applyCfgOp c

/-- At most one of the two context modes is active. -/
def atMostOneMode (c : SessionConfig) : Prop :=
  c.current_tenant_id = none ∨ c.is_superadmin = none

/-- Outcome of one coordinator invocation: the value or error returned
to the caller, the database state after commit/rollback, the
configuration statements issued on the connection (in order), and
whether the caller-supplied callback was ever invoked. -/
structure RunResult (α : Type) where
  result : Except Err α
  db : DbState
  trace : List CfgOp
  fnCalled : Bool
deriving Repr

/-- `withTenantContext(tenantId, callback)` (client.ts lines 80-111).

The surrounding `db.transaction().execute` commits the callback's final
state on success and restores the initial state on a throw. The body:
`SET LOCAL app.current_tenant_id = $1`, run the callback with the
branded transaction, and in a `finally` block `RESET` both variables
inside a `try` whose `catch` only logs — so `resetFails` (the resets
throwing, e.g. on an already-rolled-back transaction) never alters the
outcome, only which statements took effect. The callback receives the
transaction state and the session configuration the coordinator
established. -/
def withTenantContext {α : Type} (tenantId : String)
    (callback : DbState → SessionConfig → Except Err α × DbState)
    (resetFails : Bool) (s : DbState) : RunResult α :=
  let cfg := tenantContextConfig tenantId
  let cleanup : List CfgOp :=
    if resetFails then [] else [.resetTenant, .resetSuperadmin]
  match callback s cfg with
  | (.ok a, s₁) =>
    { result := .ok a, db := s₁
      trace := .setTenant tenantId :: cleanup, fnCalled := true }
  | (.error e, _) =>
    { result := .error e, db := s
      trace := .setTenant tenantId :: cleanup, fnCalled := true }

/-- `withSystemContext(callback)` (client.ts lines 133-140): no
transaction wrapper, no configuration statements; the callback simply
runs against the base instance. -/
def withSystemContext {α : Type}
    (callback : DbState → Except Err α × DbState)
    (s : DbState) : RunResult α :=
  match callback s with
  | (r, s₁) => { result := r, db := s₁, trace := [], fnCalled := true }

/-- `withPrivilegedContext(actorId, actorEmail, correlationId, reason,
callback)` (client.ts lines 173-218).

Inside one transaction: `SET LOCAL app.is_superadmin = 'true'`, then the
audit insert; if it fails the `finally` still resets the flag (errors
swallowed) and the transaction rolls back without the callback ever
running. If it succeeds the callback runs on the state containing the
audit row; commit on success, rollback on throw. The `finally` resets
only `app.is_superadmin`. -/
def withPrivilegedContext {α : Type} (req : PrivReq) (now : String)
    (callback : DbState → SessionConfig → Except Err α × DbState)
    (resetFails : Bool) (s : DbState) : RunResult α :=
  let cleanup : List CfgOp := if resetFails then [] else [.resetSuperadmin]
  match auditInsert s (mkAuditRow req now) with
  | .error e =>
    { result := .error e, db := s
      trace := .setSuperadmin "true" :: cleanup, fnCalled := false }
  | .ok s₁ =>
    match callback s₁ privilegedContextConfig with
    | (.ok a, s₂) =>
      { result := .ok a, db := s₂
        trace := .setSuperadmin "true" :: cleanup, fnCalled := true }
    | (.error e, _) =>
      { result := .error e, db := s
        trace := .setSuperadmin "true" :: cleanup, fnCalled := true }

/-- Kind of a value exported from the client module. -/
inductive ExportKind where
  /-- A coordinator entry point (query access only through a wrapped
  context). -/
  | factoryFunction
  /-- The branded `TenantTransaction` type (compile-time only). -/
  | brandedType
  /-- `closeDatabase` (pool shutdown; runs no queries). -/
  | shutdownFunction
  /-- The raw `Kysely` instance backed by the pool: an unscoped handle
  on which arbitrary queries can run. -/
  | rawDatabase
deriving DecidableEq, Repr

/-- One named export of the client module. -/
structure ModuleExport where
  name : String
  kind : ExportKind
deriving DecidableEq, Repr

/-- Whether an export of the given kind lets its holder run queries
outside the three coordinator entry points. -/
def grantsUnscopedQueries : ExportKind → Bool
  | .rawDatabase => true
  | _ => false

/-- The export list of `src/database/client.ts`, in source order:
`TenantTransaction` (line 56), the three factory functions (lines 80,
133, 173), `closeDatabase` (line 224), and
`export { db as __dangerouslyGetRawDatabase }` (line 233). -/
def clientModuleExports : List ModuleExport :=
  [ ⟨"TenantTransaction", .brandedType⟩
  , ⟨"withTenantContext", .factoryFunction⟩
  , ⟨"withSystemContext", .factoryFunction⟩
  , ⟨"withPrivilegedContext", .factoryFunction⟩
  , ⟨"closeDatabase", .shutdownFunction⟩
  , ⟨"__dangerouslyGetRawDatabase", .rawDatabase⟩ ]

/-- Sample tenant identifier (a valid UUID), for concrete instances. -/
def uuidA : String := "11111111-1111-1111-1111-111111111111"

/-- A second, distinct sample tenant identifier. -/
def uuidB : String := "22222222-2222-2222-2222-222222222222"

/-- Sample admin actor identifier (a valid UUID). -/
def actorUuid : String := "33333333-3333-3333-3333-333333333333"

/-- Sample well-formed privileged request. -/
def sampleReq : PrivReq :=
  ⟨actorUuid, "admin@example.com", "corr-1", "billing"⟩

/-- Sample privileged request with a malformed actor identifier. -/
def badReq : PrivReq :=
  ⟨"not-a-uuid", "admin@example.com", "corr-2", "support"⟩

/-- Sample metadata timestamp. -/
def sampleNow : String := "2026-01-01T00:00:00.000Z"

/-- The empty database state. -/
def emptyDb : DbState := ⟨[], [], [], []⟩

/-- A callback that succeeds with 0 and leaves the state unchanged. -/
def fnOkZero : DbState → SessionConfig → Except Err Nat × DbState :=
  fun s _ => (.ok 0, s)

/-- A callback that throws without writing. -/
def fnBoom : DbState → SessionConfig → Except Err Nat × DbState :=
  fun s _ => (.error (.callbackFailure "boom"), s)

/-- A callback that writes one projects row for tenant `uuidA` and then
throws, to exhibit the rollback of partial writes. -/
def fnPartialWriteThenBoom : DbState → SessionConfig → Except Err Nat × DbState :=
  fun s _ =>
    (.error (.callbackFailure "after partial write"),
      { s with projects := s.projects ++ [⟨"p-new", uuidA⟩] })

/-- A system-context callback that succeeds and leaves the state
unchanged. -/
def fnSysOk : DbState → Except Err Nat × DbState :=
  fun s => (.ok 0, s)

example : isValidUuid "11111111-1111-1111-1111-111111111111" = true := by decide
example : isValidUuid "not-a-uuid" = false := by decide
example : tenantMatch (tenantContextConfig "11111111-1111-1111-1111-111111111111")
    "11111111-1111-1111-1111-111111111111" = .ok true := by decide
example : projects_select ⟨none, some "true"⟩ "11111111-1111-1111-1111-111111111111"
    = .ok true := by decide
example : users_select ⟨none, some "true"⟩ "11111111-1111-1111-1111-111111111111"
    = .ok false := by decide
example : users_select ⟨some "", none⟩ "11111111-1111-1111-1111-111111111111"
    = .ok false := by decide

/-! ### Helper lemmas -/

theorem isValidUuid_ne_empty (s : String) (h : isValidUuid s = true) : s ≠ "" := by
  intro hs
  subst hs
  simp [isValidUuid] at h

theorem tenantMatch_some_valid (t r : String) (su : Option String)
    (h : isValidUuid t = true) :
    tenantMatch ⟨some t, su⟩ r = .ok (lowerStr r == lowerStr t) := by
  have hne : t ≠ "" := isValidUuid_ne_empty t h
  simp [tenantMatch, nullifEmpty, castUuidOpt, hne, h]

theorem tenantMatch_unset (cfg : SessionConfig) (r : String)
    (h : cfg.current_tenant_id = none ∨ cfg.current_tenant_id = some "") :
    tenantMatch cfg r = .ok false := by
  rcases h with h | h <;> simp [tenantMatch, nullifEmpty, castUuidOpt, h]

theorem superadminMatch_none (cfg : SessionConfig)
    (h : cfg.is_superadmin = none) : superadminMatch cfg = false := by
  simp [superadminMatch, h]

theorem tenantMatch_ok_true (t r : String) (su : Option String)
    (h : tenantMatch ⟨some t, su⟩ r = .ok true) : lowerStr r = lowerStr t := by
  by_cases h0 : t = ""
  · simp [tenantMatch, nullifEmpty, h0, castUuidOpt] at h
  · by_cases h1 : isValidUuid t
    · simp [tenantMatch, nullifEmpty, h0, castUuidOpt, h1] at h
      exact h
    · simp [tenantMatch, nullifEmpty, h0, castUuidOpt, h1] at h

theorem policyPred_eq_tenantMatch (t : TenantTable) (op : SqlOp)
    (cfg : SessionConfig) (r : String)
    (h : ¬(t = TenantTable.projects ∧ op = SqlOp.select)) :
    policyPred t op cfg r = tenantMatch cfg r := by
  cases t <;> cases op <;> first
    | rfl
    | exact absurd ⟨rfl, rfl⟩ h

theorem policyPred_select_false (t : TenantTable) (cfg : SessionConfig)
    (r : String) (ht : tenantMatch cfg r = .ok false)
    (hs : superadminMatch cfg = false) :
    policyPred t SqlOp.select cfg r = .ok false := by
  cases t <;>
    simp [policyPred, users_select, projects_select, tasks_select, ht, hs]

theorem countMatching_append_mkAuditRow (log : List AuditRow) (req : PrivReq)
    (now : String) :
    countMatching (log ++ [mkAuditRow req now]) req = countMatching log req + 1 := by
  simp [countMatching, List.filter_append, mkAuditRow]

theorem trace_withTenantContext {α : Type} (tenantId : String)
    (fn : DbState → SessionConfig → Except Err α × DbState) (rf : Bool)
    (s : DbState) :
    (withTenantContext tenantId fn rf s).trace
      = CfgOp.setTenant tenantId ::
          (if rf then [] else [CfgOp.resetTenant, CfgOp.resetSuperadmin]) := by
  unfold withTenantContext
  dsimp only
  split <;> rfl

theorem trace_withPrivilegedContext {α : Type} (req : PrivReq) (now : String)
    (fn : DbState → SessionConfig → Except Err α × DbState) (rf : Bool)
    (s : DbState) :
    (withPrivilegedContext req now fn rf s).trace
      = CfgOp.setSuperadmin "true" ::
          (if rf then [] else [CfgOp.resetSuperadmin]) := by
  unfold withPrivilegedContext
  dsimp only
  split
  · rfl
  · split <;> rfl

theorem no_setSuperadmin_keeps_none (ops : List CfgOp) :
    ∀ c : SessionConfig, c.is_superadmin = none →
      (∀ v, CfgOp.setSuperadmin v ∉ ops) →
      (applyCfgOps c ops).is_superadmin = none := by
  induction ops with
  | nil => intro c hc _; exact hc
  | cons op rest ih =>
    intro c hc hno
    have hrest : ∀ v, CfgOp.setSuperadmin v ∉ rest := by
      intro v hv
      exact hno v (List.mem_cons_of_mem _ hv)
    cases op with
    | setTenant v => exact ih _ hc hrest
    | setSuperadmin v => exact absurd (List.mem_cons_self _ _) (hno v)
    | resetTenant => exact ih _ hc hrest
    | resetSuperadmin => exact ih _ rfl hrest

theorem auditInsert_ok_shape (s s₁ : DbState) (row : AuditRow)
    (h : auditInsert s row = .ok s₁) :
    s₁ = { s with admin_audit_log := s.admin_audit_log ++ [row] } := by
  unfold auditInsert at h
  split at h
  · exact (Except.ok.inj h).symm
  · cases h

theorem withTenantContext_run_ok {α : Type} (tenantId : String)
    (fn : DbState → SessionConfig → Except Err α × DbState) (rf : Bool)
    (s : DbState) (a : α) (s₁ : DbState)
    (hfn : fn s (tenantContextConfig tenantId) = (.ok a, s₁)) :
    withTenantContext tenantId fn rf s
      = { result := .ok a, db := s₁
          trace := CfgOp.setTenant tenantId ::
            (if rf then [] else [CfgOp.resetTenant, CfgOp.resetSuperadmin])
          fnCalled := true } := by
  unfold withTenantContext
  dsimp only
  rw [hfn]

theorem withTenantContext_run_err {α : Type} (tenantId : String)
    (fn : DbState → SessionConfig → Except Err α × DbState) (rf : Bool)
    (s : DbState) (e : Err) (s₁ : DbState)
    (hfn : fn s (tenantContextConfig tenantId) = (.error e, s₁)) :
    withTenantContext tenantId fn rf s
      = { result := .error e, db := s
          trace := CfgOp.setTenant tenantId ::
            (if rf then [] else [CfgOp.resetTenant, CfgOp.resetSuperadmin])
          fnCalled := true } := by
  unfold withTenantContext
  dsimp only
  rw [hfn]

theorem withPrivilegedContext_run_ok {α : Type} (req : PrivReq) (now : String)
    (fn : DbState → SessionConfig → Except Err α × DbState) (rf : Bool)
    (s s₁ : DbState) (haud : auditInsert s (mkAuditRow req now) = .ok s₁)
    (a : α) (s₂ : DbState)
    (hfn : fn s₁ privilegedContextConfig = (.ok a, s₂)) :
    withPrivilegedContext req now fn rf s
      = { result := .ok a, db := s₂
          trace := CfgOp.setSuperadmin "true" ::
            (if rf then [] else [CfgOp.resetSuperadmin])
          fnCalled := true } := by
  unfold withPrivilegedContext
  dsimp only
  rw [haud]
  dsimp only
  rw [hfn]

theorem withPrivilegedContext_run_err {α : Type} (req : PrivReq) (now : String)
    (fn : DbState → SessionConfig → Except Err α × DbState) (rf : Bool)
    (s s₁ : DbState) (haud : auditInsert s (mkAuditRow req now) = .ok s₁)
    (e : Err) (s₂ : DbState)
    (hfn : fn s₁ privilegedContextConfig = (.error e, s₂)) :
    withPrivilegedContext req now fn rf s
      = { result := .error e, db := s
          trace := CfgOp.setSuperadmin "true" ::
            (if rf then [] else [CfgOp.resetSuperadmin])
          fnCalled := true } := by
  unfold withPrivilegedContext
  dsimp only
  rw [haud]
  dsimp only
  rw [hfn]

theorem withPrivilegedContext_run_auditFail {α : Type} (req : PrivReq)
    (now : String) (fn : DbState → SessionConfig → Except Err α × DbState)
    (rf : Bool) (s : DbState) (e : Err)
    (haud : auditInsert s (mkAuditRow req now) = .error e) :
    withPrivilegedContext req now fn rf s
      = { result := .error e, db := s
          trace := CfgOp.setSuperadmin "true" ::
            (if rf then [] else [CfgOp.resetSuperadmin])
          fnCalled := false } := by
  unfold withPrivilegedContext
  dsimp only
  rw [haud]

theorem no_setTenant_keeps_none (ops : List CfgOp) :
    ∀ c : SessionConfig, c.current_tenant_id = none →
      (∀ v, CfgOp.setTenant v ∉ ops) →
      (applyCfgOps c ops).current_tenant_id = none := by
  induction ops with
  | nil => intro c hc _; exact hc
  | cons op rest ih =>
    intro c hc hno
    have hrest : ∀ v, CfgOp.setTenant v ∉ rest := by
      intro v hv
      exact hno v (List.mem_cons_of_mem _ hv)
    cases op with
    | setTenant v => exact absurd (List.mem_cons_self _ _) (hno v)
    | setSuperadmin v => exact ih _ hc hrest
    | resetTenant => exact ih _ rfl hrest
    | resetSuperadmin => exact ih _ hc hrest

/-! ### Claim C1 -/

/-- C1: For valid tenant identifiers T1 ≠ T2, a row that was writable
under the configuration established by `withTenantContext(T1, ...)`
(its write-side policy predicate held) is invisible to every read on
every tenant-scoped table under the configuration established by
`withTenantContext(T2, ...)`: the row-filtering predicate evaluates to
false for that row. -/
theorem c1_cross_tenant_rows_invisible (t1 t2 rid : String)
    (tblW tblR : TenantTable) (opW : SqlOp)
    (h1 : isValidUuid t1 = true) (h2 : isValidUuid t2 = true)
    (hne : lowerStr t1 ≠ lowerStr t2) (hop : opW ≠ SqlOp.select)
    (hwrite : policyPred tblW opW (tenantContextConfig t1) rid = .ok true) :
    policyPred tblR SqlOp.select (tenantContextConfig t2) rid = .ok false := by
  have hW : tenantMatch (tenantContextConfig t1) rid = .ok true := by
    rw [← policyPred_eq_tenantMatch tblW opW (tenantContextConfig t1) rid
      (by rintro ⟨-, h⟩; exact hop h)]
    exact hwrite
  have hr : lowerStr rid = lowerStr t1 := tenantMatch_ok_true t1 rid none hW
  have ht : tenantMatch (tenantContextConfig t2) rid = .ok false := by
    show tenantMatch ⟨some t2, none⟩ rid = .ok false
    rw [tenantMatch_some_valid t2 rid none h2]
    simp only [hr, Except.ok.injEq]
    simp [hne]
  exact policyPred_select_false tblR (tenantContextConfig t2) rid ht
    (superadminMatch_none _ rfl)

/-- Witness for C1: tenants `uuidA` ≠ `uuidB`, a row with tenant column
`uuidA` insertable under A's context but invisible under B's. -/
theorem c1_cross_tenant_rows_invisible_witness :
    isValidUuid uuidA = true ∧ isValidUuid uuidB = true
      ∧ lowerStr uuidA ≠ lowerStr uuidB
      ∧ policyPred TenantTable.users SqlOp.insert (tenantContextConfig uuidA) uuidA
          = .ok true
      ∧ policyPred TenantTable.users SqlOp.select (tenantContextConfig uuidB) uuidA
          = .ok false :=
  ⟨by decide, by decide, by decide, by decide,
    c1_cross_tenant_rows_invisible uuidA uuidB uuidA TenantTable.users
      TenantTable.users SqlOp.insert (by decide) (by decide) (by decide)
      (by decide) (by decide)⟩

/-! ### Claim C2 -/

/-- C2: Every successful `withPrivilegedContext` run inserted, in the
same transaction and before the callback ran, exactly one audit row
matching its actorId/correlationId/reason; the callback received the
state already containing that row; the row's `action` is the fixed
literal and its metadata carries the timestamp. -/
theorem c2_privileged_audit_exactly_once {α : Type} (req : PrivReq)
    (now : String) (fn : DbState → SessionConfig → Except Err α × DbState)
    (rf : Bool) (s : DbState) (a : α)
    (hfn : ∀ sIn b sOut, fn sIn privilegedContextConfig = (Except.ok b, sOut) →
      sOut.admin_audit_log = sIn.admin_audit_log)
    (hok : (withPrivilegedContext req now fn rf s).result = .ok a) :
    auditInsert s (mkAuditRow req now)
        = .ok { s with admin_audit_log := s.admin_audit_log ++ [mkAuditRow req now] }
      ∧ fn { s with admin_audit_log := s.admin_audit_log ++ [mkAuditRow req now] }
          privilegedContextConfig
          = (Except.ok a, (withPrivilegedContext req now fn rf s).db)
      ∧ countMatching (withPrivilegedContext req now fn rf s).db.admin_audit_log req
          = countMatching s.admin_audit_log req + 1
      ∧ (countMatching s.admin_audit_log req = 0 →
          countMatching (withPrivilegedContext req now fn rf s).db.admin_audit_log req = 1)
      ∧ (mkAuditRow req now).action = "privileged_cross_tenant_query"
      ∧ (mkAuditRow req now).metadata_timestamp = now := by
  cases haud : auditInsert s (mkAuditRow req now) with
  | error e =>
    rw [withPrivilegedContext_run_auditFail req now fn rf s e haud] at hok
    cases hok
  | ok s₁ =>
    have hshape := auditInsert_ok_shape s s₁ (mkAuditRow req now) haud
    cases hfnp : fn s₁ privilegedContextConfig with
    | mk r s₂ =>
      cases r with
      | error e =>
        rw [withPrivilegedContext_run_err req now fn rf s s₁ haud e s₂ hfnp] at hok
        cases hok
      | ok b =>
        have hrun := withPrivilegedContext_run_ok req now fn rf s s₁ haud b s₂ hfnp
        rw [hrun] at hok
        have hba : b = a := Except.ok.inj hok
        subst hba
        have hdb : (withPrivilegedContext req now fn rf s).db = s₂ := by rw [hrun]
        have hlog : s₂.admin_audit_log = s₁.admin_audit_log := hfn s₁ b s₂ hfnp
        have hcount :
            countMatching (withPrivilegedContext req now fn rf s).db.admin_audit_log req
              = countMatching s.admin_audit_log req + 1 := by
          rw [hdb, hlog, hshape]
          exact countMatching_append_mkAuditRow s.admin_audit_log req now
        refine ⟨by rw [hshape], ?_, hcount, ?_, rfl, rfl⟩
        · rw [← hshape, hfnp, hdb]
        · intro h0
          rw [hcount, h0]

/-- Witness for C2: a concrete successful privileged run on the empty
database with a read-only callback. -/
theorem c2_privileged_audit_exactly_once_witness :
    auditInsert emptyDb (mkAuditRow sampleReq sampleNow)
        = .ok { emptyDb with
            admin_audit_log := emptyDb.admin_audit_log ++ [mkAuditRow sampleReq sampleNow] }
      ∧ fnOkZero { emptyDb with
            admin_audit_log := emptyDb.admin_audit_log ++ [mkAuditRow sampleReq sampleNow] }
          privilegedContextConfig
          = (Except.ok 0, (withPrivilegedContext sampleReq sampleNow fnOkZero false emptyDb).db)
      ∧ countMatching
            (withPrivilegedContext sampleReq sampleNow fnOkZero false emptyDb).db.admin_audit_log
            sampleReq
          = countMatching emptyDb.admin_audit_log sampleReq + 1
      ∧ (countMatching emptyDb.admin_audit_log sampleReq = 0 →
          countMatching
              (withPrivilegedContext sampleReq sampleNow fnOkZero false emptyDb).db.admin_audit_log
              sampleReq = 1)
      ∧ (mkAuditRow sampleReq sampleNow).action = "privileged_cross_tenant_query"
      ∧ (mkAuditRow sampleReq sampleNow).metadata_timestamp = sampleNow :=
  c2_privileged_audit_exactly_once sampleReq sampleNow fnOkZero false emptyDb 0
    (fun sIn b sOut h => by
      simp only [fnOkZero, Prod.mk.injEq] at h
      rw [← h.2])
    (by decide)

/-! ### Claim C3 -/

/-- C3: If the audit insert inside `withPrivilegedContext` fails (e.g.
a malformed actor identifier), the transaction is rolled back, the
callback is never invoked, the error propagates, and no audit row is
left behind. -/
theorem c3_audit_failure_fails_closed {α : Type} (req : PrivReq)
    (now : String) (fn : DbState → SessionConfig → Except Err α × DbState)
    (rf : Bool) (s : DbState)
    (hbad : isValidUuid req.actorId = false) :
    (withPrivilegedContext req now fn rf s).result = .error Err.auditConstraint
      ∧ (withPrivilegedContext req now fn rf s).db = s
      ∧ (withPrivilegedContext req now fn rf s).fnCalled = false
      ∧ (s.admin_audit_log = [] →
          (withPrivilegedContext req now fn rf s).db.admin_audit_log = []) := by
  have haud : auditInsert s (mkAuditRow req now) = .error Err.auditConstraint := by
    unfold auditInsert
    simp [mkAuditRow, hbad]
  rw [withPrivilegedContext_run_auditFail req now fn rf s Err.auditConstraint haud]
  exact ⟨rfl, rfl, rfl, fun h => h⟩

/-- Witness for C3: a privileged request whose actor identifier is not
a UUID. -/
theorem c3_audit_failure_fails_closed_witness :
    isValidUuid badReq.actorId = false
      ∧ (withPrivilegedContext badReq sampleNow fnOkZero false emptyDb).result
          = .error Err.auditConstraint
      ∧ (withPrivilegedContext badReq sampleNow fnOkZero false emptyDb).db = emptyDb
      ∧ (withPrivilegedContext badReq sampleNow fnOkZero false emptyDb).fnCalled = false :=
  ⟨by decide,
    (c3_audit_failure_fails_closed badReq sampleNow fnOkZero false emptyDb (by decide)).1,
    (c3_audit_failure_fails_closed badReq sampleNow fnOkZero false emptyDb (by decide)).2.1,
    (c3_audit_failure_fails_closed badReq sampleNow fnOkZero false emptyDb (by decide)).2.2.1⟩

/-! ### Claim C4 -/

/-- C4: A read on any tenant-scoped table with no tenant context
established (variable unset or empty) and the privileged flag not set
returns zero rows — not all rows and not an error. -/
theorem c4_missing_context_zero_rows (cfg : SessionConfig)
    (tbl : TenantTable) (rows : List TenantRow)
    (hT : cfg.current_tenant_id = none ∨ cfg.current_tenant_id = some "")
    (hS : cfg.is_superadmin = none) :
    filterVisible tbl SqlOp.select cfg rows = .ok [] := by
  induction rows with
  | nil => rfl
  | cons r rs ih =>
    have hp : policyPred tbl SqlOp.select cfg r.tenant_id = .ok false :=
      policyPred_select_false tbl cfg r.tenant_id
        (tenantMatch_unset cfg r.tenant_id hT) (superadminMatch_none cfg hS)
    simp [filterVisible, hp, ih]

/-- Witness for C4: with both variables unset, a populated projects
table yields zero visible rows without error. -/
theorem c4_missing_context_zero_rows_witness :
    filterVisible TenantTable.projects SqlOp.select ⟨none, none⟩
        [⟨"p1", uuidA⟩, ⟨"p2", uuidB⟩] = .ok [] :=
  c4_missing_context_zero_rows ⟨none, none⟩ TenantTable.projects
    [⟨"p1", uuidA⟩, ⟨"p2", uuidB⟩] (Or.inl rfl) rfl

/-! ### Claim C5 -/

/-- C5 counterexample: a concrete successful `withPrivilegedContext`
run whose cleanup issues only `RESET app.is_superadmin` — it never
clears the tenant identifier variable, so the claimed unconditional
two-variable clear does not hold for this entry point. -/
theorem c5_counterexample :
    (withPrivilegedContext sampleReq sampleNow fnOkZero false emptyDb).trace
        = [CfgOp.setSuperadmin "true", CfgOp.resetSuperadmin]
      ∧ CfgOp.resetTenant
          ∉ (withPrivilegedContext sampleReq sampleNow fnOkZero false emptyDb).trace := by
  decide

/-- C5 (amended): when the cleanup statements execute, the cleanup of
`withTenantContext` unconditionally clears both configuration variables
on every exit, while the cleanup of `withPrivilegedContext` clears only
the privileged flag — the one variable that entry point set. -/
theorem c5_amended_cleanup (α : Type) :
    (∀ (tenantId : String)
        (fn : DbState → SessionConfig → Except Err α × DbState) (s : DbState),
        (withTenantContext tenantId fn false s).trace
          = [CfgOp.setTenant tenantId, CfgOp.resetTenant, CfgOp.resetSuperadmin])
      ∧ (∀ (req : PrivReq) (now : String)
          (fn : DbState → SessionConfig → Except Err α × DbState) (s : DbState),
          (withPrivilegedContext req now fn false s).trace
            = [CfgOp.setSuperadmin "true", CfgOp.resetSuperadmin]) := by
  constructor
  · intro tenantId fn s
    rw [trace_withTenantContext]
    rfl
  · intro req now fn s
    rw [trace_withPrivilegedContext]
    rfl

/-! ### Claim C6 -/

/-- C6 counterexample: with the privileged flag set and no tenant
variable, the predicate the spec claims for every operation on every
table evaluates to true, but the actual `users_select` policy evaluates
to false — the privileged disjunct exists only on the projects SELECT
policy. -/
theorem c6_counterexample :
    specClaimedPred ⟨none, some "true"⟩ uuidA = .ok true
      ∧ policyPred TenantTable.users SqlOp.select ⟨none, some "true"⟩ uuidA
          = .ok false := by
  decide

/-- C6 (amended): the disjunctive predicate (tenant equality OR
privileged flag) applies exactly to SELECT on projects; every other
(table, operation) pair filters by tenant equality alone. -/
theorem c6_amended_policy_shape :
    (∀ (cfg : SessionConfig) (rid : String),
        policyPred TenantTable.projects SqlOp.select cfg rid = specClaimedPred cfg rid)
      ∧ (∀ (t : TenantTable) (op : SqlOp) (cfg : SessionConfig) (rid : String),
          ¬(t = TenantTable.projects ∧ op = SqlOp.select) →
          policyPred t op cfg rid = tenantMatch cfg rid) := by
  constructor
  · intro cfg rid
    rfl
  · intro t op cfg rid h
    exact policyPred_eq_tenantMatch t op cfg rid h

/-- Witness for the amended C6 at a concrete non-projects-SELECT pair. -/
theorem c6_amended_policy_shape_witness :
    policyPred TenantTable.tasks SqlOp.delete ⟨none, some "true"⟩ uuidB
      = tenantMatch ⟨none, some "true"⟩ uuidB :=
  c6_amended_policy_shape.2 TenantTable.tasks SqlOp.delete ⟨none, some "true"⟩ uuidB
    (by decide)

/-! ### Claim C7 -/

/-- C7: If the callback of `withTenantContext` throws, the transaction
rolls back: the final database state is the initial one, whatever
partial writes the callback had performed, and the error is returned. -/
theorem c7_rollback_on_callback_throw {α : Type} (tenantId : String)
    (fn : DbState → SessionConfig → Except Err α × DbState) (rf : Bool)
    (s sPartial : DbState) (e : Err)
    (hthrow : fn s (tenantContextConfig tenantId) = (Except.error e, sPartial)) :
    (withTenantContext tenantId fn rf s).result = .error e
      ∧ (withTenantContext tenantId fn rf s).db = s := by
  rw [withTenantContext_run_err tenantId fn rf s e sPartial hthrow]
  exact ⟨rfl, rfl⟩

/-- Witness for C7: a callback that performs a partial write and then
throws; the write is not visible afterwards. -/
theorem c7_rollback_on_callback_throw_witness :
    fnPartialWriteThenBoom emptyDb (tenantContextConfig uuidA)
        = (Except.error (Err.callbackFailure "after partial write"),
            ⟨[], [⟨"p-new", uuidA⟩], [], []⟩)
      ∧ (withTenantContext uuidA fnPartialWriteThenBoom false emptyDb).result
          = .error (Err.callbackFailure "after partial write")
      ∧ (withTenantContext uuidA fnPartialWriteThenBoom false emptyDb).db = emptyDb :=
  ⟨by decide,
    (c7_rollback_on_callback_throw uuidA fnPartialWriteThenBoom false emptyDb
      ⟨[], [⟨"p-new", uuidA⟩], [], []⟩ (Err.callbackFailure "after partial write")
      (by decide)).1,
    (c7_rollback_on_callback_throw uuidA fnPartialWriteThenBoom false emptyDb
      ⟨[], [⟨"p-new", uuidA⟩], [], []⟩ (Err.callbackFailure "after partial write")
      (by decide)).2⟩

/-! ### Claim C8 -/

/-- C8: Callback errors are propagated to the caller unchanged by both
transaction-wrapping entry points, and failures of the cleanup
statements (the `finally` resets) never alter the returned outcome. -/
theorem c8_error_propagation (α : Type) :
    (∀ (tenantId : String)
        (fn : DbState → SessionConfig → Except Err α × DbState)
        (s sPartial : DbState) (e : Err) (rf : Bool),
        fn s (tenantContextConfig tenantId) = (Except.error e, sPartial) →
        (withTenantContext tenantId fn rf s).result = .error e)
      ∧ (∀ (req : PrivReq) (now : String)
          (fn : DbState → SessionConfig → Except Err α × DbState)
          (s s₁ sPartial : DbState) (e : Err) (rf : Bool),
          auditInsert s (mkAuditRow req now) = .ok s₁ →
          fn s₁ privilegedContextConfig = (Except.error e, sPartial) →
          (withPrivilegedContext req now fn rf s).result = .error e)
      ∧ (∀ (tenantId : String)
          (fn : DbState → SessionConfig → Except Err α × DbState) (s : DbState),
          (withTenantContext tenantId fn true s).result
            = (withTenantContext tenantId fn false s).result)
      ∧ (∀ (req : PrivReq) (now : String)
          (fn : DbState → SessionConfig → Except Err α × DbState) (s : DbState),
          (withPrivilegedContext req now fn true s).result
            = (withPrivilegedContext req now fn false s).result) := by
  refine ⟨?_, ?_, ?_, ?_⟩
  · intro tenantId fn s sPartial e rf hthrow
    rw [withTenantContext_run_err tenantId fn rf s e sPartial hthrow]
  · intro req now fn s s₁ sPartial e rf haud hthrow
    rw [withPrivilegedContext_run_err req now fn rf s s₁ haud e sPartial hthrow]
  · intro tenantId fn s
    cases hfnp : fn s (tenantContextConfig tenantId) with
    | mk r s₁ =>
      cases r with
      | ok a =>
        rw [withTenantContext_run_ok tenantId fn true s a s₁ hfnp,
          withTenantContext_run_ok tenantId fn false s a s₁ hfnp]
      | error e =>
        rw [withTenantContext_run_err tenantId fn true s e s₁ hfnp,
          withTenantContext_run_err tenantId fn false s e s₁ hfnp]
  · intro req now fn s
    cases haud : auditInsert s (mkAuditRow req now) with
    | error e =>
      rw [withPrivilegedContext_run_auditFail req now fn true s e haud,
        withPrivilegedContext_run_auditFail req now fn false s e haud]
    | ok s₁ =>
      cases hfnp : fn s₁ privilegedContextConfig with
      | mk r s₂ =>
        cases r with
        | ok a =>
          rw [withPrivilegedContext_run_ok req now fn true s s₁ haud a s₂ hfnp,
            withPrivilegedContext_run_ok req now fn false s s₁ haud a s₂ hfnp]
        | error e =>
          rw [withPrivilegedContext_run_err req now fn true s s₁ haud e s₂ hfnp,
            withPrivilegedContext_run_err req now fn false s s₁ haud e s₂ hfnp]

/-- Witness for C8: the callback error surfaces unchanged even when the
cleanup statements themselves fail. -/
theorem c8_error_propagation_witness :
    (withTenantContext uuidA fnBoom true emptyDb).result
      = .error (Err.callbackFailure "boom") :=
  (c8_error_propagation Nat).1 uuidA fnBoom emptyDb emptyDb
    (Err.callbackFailure "boom") true (by decide)

/-! ### Claim C9 -/

/-- C9: Along every prefix of the configuration statements issued by
each entry point, at most one of the tenant variable and the privileged
flag is ever set: `withTenantContext` never sets the flag,
`withPrivilegedContext` never sets the tenant variable, and
`withSystemContext` issues no configuration statements at all. -/
theorem c9_mode_mutual_exclusion (α : Type) :
    (∀ (tenantId : String)
        (fn : DbState → SessionConfig → Except Err α × DbState)
        (rf : Bool) (s : DbState) (p : List CfgOp),
        p <+: (withTenantContext tenantId fn rf s).trace →
        atMostOneMode (applyCfgOps emptyConfig p))
      ∧ (∀ (req : PrivReq) (now : String)
          (fn : DbState → SessionConfig → Except Err α × DbState)
          (rf : Bool) (s : DbState) (p : List CfgOp),
          p <+: (withPrivilegedContext req now fn rf s).trace →
          atMostOneMode (applyCfgOps emptyConfig p))
      ∧ (∀ (fn : DbState → Except Err α × DbState) (s : DbState),
          (withSystemContext fn s).trace = []) := by
  refine ⟨?_, ?_, ?_⟩
  · intro tenantId fn rf s p hp
    refine Or.inr (no_setSuperadmin_keeps_none p emptyConfig rfl ?_)
    intro v hv
    have hmem := hp.subset hv
    rw [trace_withTenantContext] at hmem
    cases rf <;> simp at hmem
  · intro req now fn rf s p hp
    refine Or.inl (no_setTenant_keeps_none p emptyConfig rfl ?_)
    intro v hv
    have hmem := hp.subset hv
    rw [trace_withPrivilegedContext] at hmem
    cases rf <;> simp at hmem
  · intro fn s
    rfl

/-- Witness for C9: the configuration state after the first statement
of a concrete tenant-scoped run has only the tenant variable set. -/
theorem c9_mode_mutual_exclusion_witness :
    atMostOneMode (applyCfgOps emptyConfig [CfgOp.setTenant uuidA]) :=
  (c9_mode_mutual_exclusion Nat).1 uuidA fnOkZero false emptyDb
    [CfgOp.setTenant uuidA]
    ⟨[CfgOp.resetTenant, CfgOp.resetSuperadmin], by decide⟩

/-! ### Claim C10 -/

/-- C10 counterexample: the client module's export list does contain
the raw pooled database instance, under the name
`__dangerouslyGetRawDatabase`, and that export grants unscoped query
capability — so the raw factory object is exported, and the three entry
points are not the only exports through which a query can run. -/
theorem c10_counterexample :
    (⟨"__dangerouslyGetRawDatabase", ExportKind.rawDatabase⟩ : ModuleExport)
        ∈ clientModuleExports
      ∧ grantsUnscopedQueries ExportKind.rawDatabase = true := by
  decide

/-- C10 (amended): the module exports exactly one unscoped-query
handle, the escape hatch `__dangerouslyGetRawDatabase` reserved for
migrations and scripts, and exactly three coordinator entry points. -/
theorem c10_amended_exports :
    ((clientModuleExports.filter fun e => grantsUnscopedQueries e.kind).map
        ModuleExport.name) = ["__dangerouslyGetRawDatabase"]
      ∧ ((clientModuleExports.filter fun e =>
            e.kind == ExportKind.factoryFunction).map ModuleExport.name)
          = ["withTenantContext", "withSystemContext", "withPrivilegedContext"] := by
  decide

end RlsMT
